import Mathlib

/-!
Verification development for the pastebin server (`src/server.js`).

Shallow embedding conventions:
* Buffers of UTF-8-representable content are modelled by the decoded
  `String` (JS `Buffer.from(s, 'utf8').toString('utf8') = s` for such
  content, which is exactly the spec's representability hypothesis).
* The local JSON database `db.json` (readDB/writeDB plus `db[slug] = ...`
  assignments) is modelled as an association list `DB` with front
  insertion and first-match lookup, which reproduces the overwrite
  semantics of a JS object keyed by slug.
* The MEGA backend is modelled by an oracle: uploads are parametrised
  by their outcome (`Except` error-or-link, covering both `storage.upload`
  and `file.link` failures, which the code treats identically via
  `reject`), and fetches (`File.fromURL` / `downloadBuffer`) by a
  function `String → Option String` from link to content.
* The random slug (`crypto.randomBytes(16).toString('hex')`) and the
  timestamp (`new Date().toISOString()`) are parameters of each create.
-/

/-- Record stored in `db.json` under a slug: the object literal assigned
by `db[slug] = { filename, language, megaLink, createdAt }` in the
`POST /api/paste` handler of `src/server.js`. -/
structure Record where
  filename : String
  language : String
  megaLink : String
  createdAt : String
deriving DecidableEq, Repr

/-- The slug-keyed record store persisted as `db.json`. -/
abbrev DB := List (String × Record)

/-- Lookup `db[slug]`, as performed by the view and raw handlers. -/
def dbGet (db : DB) (slug : String) : Option Record :=
  match db with
  | [] => none
  | (k, r) :: rest => if k = slug then some r else dbGet rest slug

/-- The assignment `db[slug] = record` followed by `writeDB(db)`:
front insertion shadows any earlier binding of the same key. -/
def dbSet (db : DB) (slug : String) (r : Record) : DB :=
  (slug, r) :: db

/-- The remote MEGA account's contents, as a map from public link to the
UTF-8-decoded bytes stored there. -/
abbrev Backend := List (String × String)

/-- Dereference a MEGA link (`File.fromURL` + `downloadBuffer`), returning
the stored content when the link is known. -/
def fetchLink (be : Backend) (link : String) : Option String :=
  match be with
  | [] => none
  | (k, c) :: rest => if k = link then some c else fetchLink rest link

/-- The fields of a `POST /api/paste` request body that the handler reads:
an optional uploaded file part (`req.file`), and the optional `content`,
`filename`, `language` and `expire` body fields. -/
structure CreateReq where
  file : Option String
  content : Option String
  filename : Option String
  language : Option String
  expire : Option String
deriving DecidableEq, Repr

/-- JS `o || d` on an optional string: missing or empty both fall back to
the default (`req.body.language || 'text'`). -/
def jsOrDefault (o : Option String) (d : String) : String :=
  match o with
  | none => d
  | some s => if s = "" then d else s

/-- JS `String.prototype.trim`: strip leading and trailing whitespace,
modelled structurally over the string's character list. -/
def jsTrim (s : String) : String :=
  ⟨((s.data.dropWhile Char.isWhitespace).reverse.dropWhile
      Char.isWhitespace).reverse⟩

/-- The `filenameProvided` local of the create handler:
`req.body.filename && req.body.filename.trim() !== '' ? req.body.filename.trim() : null`.
A missing, empty, or all-whitespace filename yields `none`. -/
def filenameProvided (req : CreateReq) : Option String :=
  match req.filename with
  | none => none
  | some f => if jsTrim f = "" then none else some (jsTrim f)

/-- The `language` local: `req.body.language || 'text'`. -/
def resolvedLanguage (req : CreateReq) : String :=
  jsOrDefault req.language "text"

/-- The `filename` local:
`filenameProvided || slug + "." + (language === 'text' ? 'txt' : language)`. -/
def resolvedFilename (req : CreateReq) (slug : String) : String :=
  match filenameProvided req with
  | some f => f
  | none =>
      slug ++ "." ++
        (if resolvedLanguage req = "text" then "txt" else resolvedLanguage req)

/-- The `fileBuffer` local: the uploaded file's buffer when a file part is
present, else `Buffer.from(content || '', 'utf8')` where
`content = req.body.content ?? ''`. -/
def fileBuffer (req : CreateReq) : String :=
  match req.file with
  | some b => b
  | none => req.content.getD ""

/-- Body of the JSON success response of `POST /api/paste`:
`{ ok: true, slug, url, megaUrl }`. -/
structure CreateOk where
  slug : String
  url : String
  megaUrl : String
deriving DecidableEq, Repr

/-- Response of the create handler: the `ok: true` JSON on success, or the
`res.status(500).json({ ok: false, error })` failure. -/
inductive CreateResp where
  | ok (body : CreateOk)
  | err (status : Nat) (error : String)
deriving DecidableEq, Repr

/-- The `POST /api/paste` handler, parametrised by the configured base URL,
the generated slug, the current timestamp and the backend upload outcome
(error message, or the public link obtained from `file.link`). The
record-store write happens only inside the success callback. -/
def createPaste (baseUrl : String) (req : CreateReq) (slug now : String)
    (uploadResult : Except String String) (db : DB) : DB × CreateResp :=
  match uploadResult with
  | .error e => (db, .err 500 e)
  | .ok link =>
      let r : Record :=
        ⟨resolvedFilename req slug, resolvedLanguage req, link, now⟩
      (dbSet db slug r,
        .ok ⟨slug, baseUrl ++ "/paste/" ++ slug, link⟩)

/-- Response of `GET /paste/:slug`: 404 page, rendered paste view
(`res.render('paste', { slug, text, filename, language, megaLink })`),
or the fallback redirect to the MEGA link. -/
inductive ViewResp where
  | notFound (status : Nat) (msg : String)
  | render (slug text filename language megaLink : String)
  | redirect (link : String)
deriving DecidableEq, Repr

/-- The `GET /paste/:slug` handler: look up the record, fetch the MEGA
link, render on success, redirect to the stored link on fetch failure. -/
def viewPaste (slug : String) (db : DB) (fetch : String → Option String) :
    ViewResp :=
  match dbGet db slug with
  | none => .notFound 404 "Paste not found"
  | some r =>
      match fetch r.megaLink with
      | some buffer => .render slug buffer r.filename r.language r.megaLink
      | none => .redirect r.megaLink

/-- Response of `GET /raw/:slug`: 404, plain text body with its
Content-Type header, or the fallback redirect. -/
inductive RawResp where
  | notFound (status : Nat) (msg : String)
  | text (contentType : String) (body : String)
  | redirect (link : String)
deriving DecidableEq, Repr

/-- The `GET /raw/:slug` handler. -/
def rawPaste (slug : String) (db : DB) (fetch : String → Option String) :
    RawResp :=
  match dbGet db slug with
  | none => .notFound 404 "Not found"
  | some r =>
      match fetch r.megaLink with
      | some buffer => .text "text/plain; charset=utf-8" buffer
      | none => .redirect r.megaLink

/-- Whole-system state: the local record store plus the remote account. -/
structure Sys where
  db : DB
  backend : Backend
deriving DecidableEq, Repr

/-- A request to one of the three dynamic routes. Create carries the
environment of its handler run: base URL, generated slug, timestamp and
upload outcome. -/
inductive Request where
  | create (baseUrl : String) (req : CreateReq) (slug now : String)
      (uploadResult : Except String String)
  | view (slug : String)
  | raw (slug : String)
deriving Repr

/-- A response from one of the three dynamic routes. -/
inductive Response where
  | created (r : CreateResp)
  | viewed (r : ViewResp)
  | rawed (r : RawResp)
deriving DecidableEq, Repr

/-- One request handled by the server. A successful upload places the
uploaded buffer on the remote account under the returned link; the view
and raw handlers only call `readDB`, never `writeDB`, so they return the
state unchanged, and their fetches resolve against the remote account. -/
def serverStep : Request → Sys → Sys × Response
  | .create baseUrl req slug now ur, st =>
      let (db2, resp) := createPaste baseUrl req slug now ur st.db
      let be2 : Backend :=
        match ur with
        | .ok link => (link, fileBuffer req) :: st.backend
        | .error _ => st.backend
      (⟨db2, be2⟩, .created resp)
  | .view slug, st => (st, .viewed (viewPaste slug st.db (fetchLink st.backend)))
  | .raw slug, st => (st, .rawed (rawPaste slug st.db (fetchLink st.backend)))

/-! ## Theorems -/

/-- C5: if the backend store (upload or link retrieval) fails during
Create, the request fails with a 500 `{ ok: false, error }` response and
the whole system state — the record store in particular — is unchanged:
no partial record is written for the generated slug. -/
theorem create_failure_no_partial (baseUrl : String) (req : CreateReq)
    (slug now e : String) (st : Sys) :
    serverStep (.create baseUrl req slug now (.error e)) st
      = (st, .created (.err 500 e)) := by
  simp [serverStep, createPaste]

/-- C7: on successful Create the response is the JSON
`{ ok: true, slug, url, megaUrl }` with `url` the configured base URL
followed by `/paste/<slug>` and `megaUrl` the backend link; on failure it
is `{ ok: false, error }` with status 500. -/
theorem create_response_shape (baseUrl : String) (req : CreateReq)
    (slug now link e : String) (db : DB) :
    (createPaste baseUrl req slug now (.ok link) db).2
        = .ok ⟨slug, baseUrl ++ "/paste/" ++ slug, link⟩ ∧
    (createPaste baseUrl req slug now (.error e) db).2 = .err 500 e := by
  exact ⟨rfl, rfl⟩

/-- C8: the `expire` field has no effect. Two Create requests identical
except for `expire`, run with the same slug, timestamp and upload
outcome, produce identical system states (record store and backend
upload included) and identical responses. -/
theorem expire_no_effect (baseUrl : String) (req : CreateReq)
    (e1 e2 : Option String) (slug now : String)
    (ur : Except String String) (st : Sys) :
    serverStep (.create baseUrl { req with expire := e1 } slug now ur) st
      = serverStep (.create baseUrl { req with expire := e2 } slug now ur) st := by
  cases ur <;> rfl

/-- C9: View and Raw never write to the record store — each returns the
system state unchanged — and calling View (or Raw) twice with no
intervening Create, hence against the same store and backend content,
returns identical responses both times. -/
theorem view_raw_idempotent (s : String) (st : Sys) :
    (serverStep (.view s) st).1 = st ∧
    (serverStep (.raw s) st).1 = st ∧
    (serverStep (.view s) (serverStep (.view s) st).1).2
      = (serverStep (.view s) st).2 ∧
    (serverStep (.raw s) (serverStep (.raw s) st).1).2
      = (serverStep (.raw s) st).2 := by
  exact ⟨rfl, rfl, rfl, rfl⟩

/-- C2: for every slug absent from the record store, View and Raw return
their 404 responses, and the result is independent of the backend fetch
function — no backend fetch influences (or is needed for) the answer. -/
theorem absent_slug_not_found (slug : String) (db : DB)
    (f g : String → Option String) (h : dbGet db slug = none) :
    viewPaste slug db f = .notFound 404 "Paste not found" ∧
    rawPaste slug db f = .notFound 404 "Not found" ∧
    viewPaste slug db f = viewPaste slug db g ∧
    rawPaste slug db f = rawPaste slug db g := by
  refine ⟨?_, ?_, ?_, ?_⟩ <;> simp [viewPaste, rawPaste, h]

/-- Witness for C2 at slug `"s"` and the empty store, with two fetch
functions that disagree everywhere. -/
theorem absent_slug_not_found_witness :
    dbGet [] "s" = none ∧
    (viewPaste "s" [] (fun _ => none) = .notFound 404 "Paste not found" ∧
     rawPaste "s" [] (fun _ => none) = .notFound 404 "Not found" ∧
     viewPaste "s" [] (fun _ => none) = viewPaste "s" [] (fun _ => some "x") ∧
     rawPaste "s" [] (fun _ => none) = rawPaste "s" [] (fun _ => some "x")) :=
  ⟨rfl, absent_slug_not_found "s" [] (fun _ => none) (fun _ => some "x") rfl⟩

/-- C4: for every slug present in the record store, if the backend fetch
of the stored link fails, both View and Raw redirect to exactly that
stored link, never an error page. -/
theorem fetch_failure_fallback (slug : String) (db : DB) (r : Record)
    (fetch : String → Option String) (h : dbGet db slug = some r)
    (hf : fetch r.megaLink = none) :
    viewPaste slug db fetch = .redirect r.megaLink ∧
    rawPaste slug db fetch = .redirect r.megaLink := by
  constructor <;> simp [viewPaste, rawPaste, h, hf]

/-- Witness for C4: a one-record store and a fetch that always fails. -/
theorem fetch_failure_fallback_witness :
    dbGet [("s", (⟨"s.txt", "text", "L", "t"⟩ : Record))] "s"
        = some ⟨"s.txt", "text", "L", "t"⟩ ∧
    viewPaste "s" [("s", ⟨"s.txt", "text", "L", "t"⟩)] (fun _ => none)
        = .redirect "L" ∧
    rawPaste "s" [("s", ⟨"s.txt", "text", "L", "t"⟩)] (fun _ => none)
        = .redirect "L" := by
  refine ⟨by decide, ?_⟩
  exact fetch_failure_fallback "s" [("s", ⟨"s.txt", "text", "L", "t"⟩)]
    ⟨"s.txt", "text", "L", "t"⟩ (fun _ => none) (by decide) rfl

/-- C1: Create with UTF-8-representable content (sent as the `content`
field, any filename/language/expire options) followed by View or Raw on
the returned slug yields text byte-identical to the input content: View
renders exactly the uploaded string and Raw serves it as plain text. -/
theorem create_then_view_roundtrip (baseUrl c slug now link : String)
    (fn lang ex : Option String) (st : Sys) :
    (serverStep (.view slug)
        (serverStep (.create baseUrl ⟨none, some c, fn, lang, ex⟩
            slug now (.ok link)) st).1).2
      = .viewed (.render slug c
          (resolvedFilename ⟨none, some c, fn, lang, ex⟩ slug)
          (resolvedLanguage ⟨none, some c, fn, lang, ex⟩) link) ∧
    (serverStep (.raw slug)
        (serverStep (.create baseUrl ⟨none, some c, fn, lang, ex⟩
            slug now (.ok link)) st).1).2
      = .rawed (.text "text/plain; charset=utf-8" c) := by
  constructor <;>
    simp [serverStep, createPaste, viewPaste, rawPaste, dbGet, dbSet,
      fetchLink, fileBuffer]

/-- C10: a Create request with neither an uploaded file part nor a
`content` field is not rejected: the uploaded buffer is the empty string,
and on backend success a record is stored for the slug and the usual
`ok: true` response is returned, like any other paste. -/
theorem empty_create_proceeds (baseUrl slug now link : String)
    (fn lang ex : Option String) (st : Sys) :
    fileBuffer ⟨none, none, fn, lang, ex⟩ = "" ∧
    (serverStep (.create baseUrl ⟨none, none, fn, lang, ex⟩
          slug now (.ok link)) st).2
      = .created (.ok ⟨slug, baseUrl ++ "/paste/" ++ slug, link⟩) ∧
    dbGet (serverStep (.create baseUrl ⟨none, none, fn, lang, ex⟩
          slug now (.ok link)) st).1.db slug
      = some ⟨resolvedFilename ⟨none, none, fn, lang, ex⟩ slug,
              resolvedLanguage ⟨none, none, fn, lang, ex⟩, link, now⟩ ∧
    (serverStep (.create baseUrl ⟨none, none, fn, lang, ex⟩
          slug now (.ok link)) st).1.backend
      = (link, "") :: st.backend := by
  refine ⟨rfl, rfl, ?_, rfl⟩
  simp [serverStep, createPaste, dbGet, dbSet]

/-- C3: the record stored by a successful Create carries the resolved
filename, and the resolution follows the cases of the claim: a
caller-provided filename that is non-empty after trimming is used
trimmed; otherwise the filename is `<slug>.txt` when the resolved
language is `"text"` (and an absent language resolves to `"text"`), and
`<slug>.<language>` for every other resolved language tag. -/
theorem stored_filename_spec (baseUrl : String) (req : CreateReq)
    (slug now link : String) (db : DB) :
    dbGet (createPaste baseUrl req slug now (.ok link) db).1 slug
      = some ⟨resolvedFilename req slug, resolvedLanguage req, link, now⟩ ∧
    (∀ f, req.filename = some f → jsTrim f ≠ "" →
        resolvedFilename req slug = jsTrim f) ∧
    (filenameProvided req = none → resolvedLanguage req = "text" →
        resolvedFilename req slug = slug ++ ".txt") ∧
    (filenameProvided req = none → resolvedLanguage req ≠ "text" →
        resolvedFilename req slug = slug ++ "." ++ resolvedLanguage req) ∧
    (req.language = none → resolvedLanguage req = "text") := by
  refine ⟨by simp [createPaste, dbGet, dbSet], ?_, ?_, ?_, ?_⟩
  · intro f hf htrim
    simp [resolvedFilename, filenameProvided, hf, htrim]
  · intro hnone hlang
    simp only [resolvedFilename, hnone, hlang, if_pos]
    rw [String.append_assoc]
    congr 1
  · intro hnone hlang
    simp [resolvedFilename, hnone, hlang]
  · intro hnone
    simp [resolvedLanguage, jsOrDefault, hnone]

/-- Witness for C3: a request whose filename needs trimming resolves to
the trimmed value, and an omitted filename with omitted language gives
`<slug>.txt`. -/
theorem stored_filename_spec_witness :
    ((⟨none, some "x", some " a.py ", none, none⟩ : CreateReq).filename
        = some " a.py " ∧ jsTrim " a.py " ≠ "") ∧
    resolvedFilename ⟨none, some "x", some " a.py ", none, none⟩ "s"
        = jsTrim " a.py " ∧
    (filenameProvided ⟨none, some "x", none, none, none⟩ = none ∧
     resolvedLanguage ⟨none, some "x", none, none, none⟩ = "text") ∧
    resolvedFilename ⟨none, some "x", none, none, none⟩ "s" = "s" ++ ".txt" :=
  ⟨⟨rfl, by decide⟩,
   (stored_filename_spec "b" ⟨none, some "x", some " a.py ", none, none⟩
      "s" "t" "L" []).2.1 " a.py " rfl (by decide),
   ⟨by decide, rfl⟩,
   (stored_filename_spec "b" ⟨none, some "x", none, none, none⟩
      "s" "t" "L" []).2.2.1 (by decide) rfl⟩

/-- C6 counterexample: the create handler performs no uniqueness check
before `db[slug] = record`, so a Create whose randomly generated slug
collides with an existing one rebinds that slug to a different Record.
Concretely, with `"s"` bound to a record with link `"L1"`, a Create that
generates slug `"s"` and uploads to link `"L2"` changes the binding. -/
theorem slug_rebinding_counterexample :
    dbGet [("s", (⟨"s.txt", "text", "L1", "t1"⟩ : Record))] "s"
        = some ⟨"s.txt", "text", "L1", "t1"⟩ ∧
    dbGet (serverStep
          (.create "b" ⟨none, some "y", none, none, none⟩ "s" "t2" (.ok "L2"))
          ⟨[("s", ⟨"s.txt", "text", "L1", "t1"⟩)], []⟩).1.db "s"
        ≠ some ⟨"s.txt", "text", "L1", "t1"⟩ := by
  exact ⟨by decide, by decide⟩

/-- C6 (amended): once a slug maps to a Record, View and Raw leave the
mapping intact, and so does any Create whose generated slug differs from
it; only a Create whose random slug collides with it (no uniqueness
check is performed) can rebind it. -/
theorem existing_record_preserved (rq : Request) (st : Sys) (s : String)
    (r : Record) (hs : dbGet st.db s = some r)
    (hfresh : ∀ baseUrl req slug now ur,
        rq = .create baseUrl req slug now ur → slug ≠ s) :
    dbGet (serverStep rq st).1.db s = some r := by
  cases rq with
  | create baseUrl req slug now ur =>
      have hne : slug ≠ s := hfresh baseUrl req slug now ur rfl
      cases ur with
      | error e => simpa [serverStep, createPaste] using hs
      | ok link => simpa [serverStep, createPaste, dbSet, dbGet, hne] using hs
  | view slug => simpa [serverStep] using hs
  | raw slug => simpa [serverStep] using hs

/-- Witness for the amended C6: a View of another slug and a Create with
a fresh slug `"u"` both preserve the existing binding of `"s"`. -/
theorem existing_record_preserved_witness :
    dbGet [("s", (⟨"s.txt", "text", "L1", "t1"⟩ : Record))] "s"
        = some ⟨"s.txt", "text", "L1", "t1"⟩ ∧
    dbGet (serverStep (.view "x")
          ⟨[("s", ⟨"s.txt", "text", "L1", "t1"⟩)], []⟩).1.db "s"
        = some ⟨"s.txt", "text", "L1", "t1"⟩ ∧
    dbGet (serverStep
          (.create "b" ⟨none, some "y", none, none, none⟩ "u" "t2" (.ok "L2"))
          ⟨[("s", ⟨"s.txt", "text", "L1", "t1"⟩)], []⟩).1.db "s"
        = some ⟨"s.txt", "text", "L1", "t1"⟩ :=
  ⟨by decide,
   existing_record_preserved (.view "x")
     ⟨[("s", ⟨"s.txt", "text", "L1", "t1"⟩)], []⟩ "s"
     ⟨"s.txt", "text", "L1", "t1"⟩ (by decide)
     (fun _ _ _ _ _ h => Request.noConfusion h),
   existing_record_preserved
     (.create "b" ⟨none, some "y", none, none, none⟩ "u" "t2" (.ok "L2"))
     ⟨[("s", ⟨"s.txt", "text", "L1", "t1"⟩)], []⟩ "s"
     ⟨"s.txt", "text", "L1", "t1"⟩ (by decide)
     (by intro baseUrl req slug now ur h; cases h; decide)⟩
